import Mathlib

/-!
Shallow embedding of `src/hw/arm/ast2400.c` (QEMU AST2400 SoC integration
layer): the catch-all IO handlers, the fixed wiring constants, and the
`ast2400_realize` composition sequence, modelled as a pure function that
emits the trace of collaborator calls and threads the `Error *err` channel
exactly as the C code does.
-/

namespace Ast2400

/-- `#define AST2400_UART_5_BASE 0x00184000` -/
def AST2400_UART_5_BASE : Nat := 0x00184000

/-- `#define AST2400_IOMEM_SIZE 0x00200000` -/
def AST2400_IOMEM_SIZE : Nat := 0x00200000

/-- `#define AST2400_IOMEM_BASE 0x1E600000` -/
def AST2400_IOMEM_BASE : Nat := 0x1E600000

/-- `#define CDNS_GEM_ADDR 0x1E680000` -/
def CDNS_GEM_ADDR : Nat := 0x1E680000

/-- `#define AST2400_VIC_BASE 0x1E6C0000` -/
def AST2400_VIC_BASE : Nat := 0x1E6C0000

/-- `#define AST2400_SCU_BASE 0x1E6E2000` -/
def AST2400_SCU_BASE : Nat := 0x1E6E2000

/-- `#define AST2400_TIMER_BASE 0x1E782000` -/
def AST2400_TIMER_BASE : Nat := 0x1E782000

/-- `#define AST2400_I2C_BASE 0x1E78A000` -/
def AST2400_I2C_BASE : Nat := 0x1E78A000

/-- `static const int uart_irqs[] = { 9, 32, 33, 34, 10 };` -/
def uart_irqs : List Nat := [9, 32, 33, 34, 10]

/-- `static const int timer_irqs[] = { 16, 17, 18, 35, 36, 37, 38, 39, };` -/
def timer_irqs : List Nat := [16, 17, 18, 35, 36, 37, 38, 39]

/-- `#define CDNS_GEM_IRQ 3` -/
def CDNS_GEM_IRQ : Nat := 3

/-! ## Catch-all IO handlers

`ast2400_io_read` / `ast2400_io_write` catch any reads/writes to IO
addresses that are not handled by a device mapping.  They keep no state;
each emits one `qemu_log_mask(LOG_UNIMP, ...)` diagnostic record. -/

/-- The diagnostic record a catch-all read logs: `"%s: 0x%x [%u]"`,
i.e. offset and size. -/
structure ReadLog where
  offset : Nat
  size : Nat
  deriving DecidableEq, Repr

/-- The diagnostic record a catch-all write logs: `"%s: 0x%x <- 0x%x [%u]"`,
i.e. offset, value and size. -/
structure WriteLog where
  offset : Nat
  value : Nat
  size : Nat
  deriving DecidableEq, Repr

/-- `ast2400_io_read`: log the access and return 0.  The C handler takes an
unused opaque pointer, touches no state, and cannot fail (it is a total
function of offset and size). -/
def ast2400_io_read (offset : Nat) (size : Nat) : Nat × ReadLog :=
  (0, { offset := offset, size := size })

/-- `ast2400_io_write`: log the access and discard the value.  The C handler
takes an unused opaque pointer, touches no state, and cannot fail; its only
output is the diagnostic record. -/
def ast2400_io_write (offset : Nat) (value : Nat) (size : Nat) : WriteLog :=
  { offset := offset, value := value, size := size }

/-! ## The peripherals and the fallible collaborator calls of
`ast2400_realize`. -/

/-- The peripherals the composer touches, in the order `ast2400_realize`
declares their bring-up steps. -/
inductive Periph where
  | vic | timer | gem | scu | uart | i2c | tmp423 | ds1338
  deriving DecidableEq, Repr

/-- Bring-up order rank of each peripheral inside `ast2400_realize`:
VIC, then timer, then GEM, then SCU, then (optional) UART, then I2C,
then the two I2C slaves. -/
def periphRank : Periph → Nat
  | .vic => 0
  | .timer => 1
  | .gem => 2
  | .scu => 3
  | .uart => 4
  | .i2c => 5
  | .tmp423 => 6
  | .ds1338 => 7

/-- Every fallible collaborator call site in `ast2400_realize`: each
`object_property_set_int` / `object_property_set_bool(..., "realized", ...)`
that receives the `&err` out-parameter. -/
inductive CallSite where
  | vicSense | vicDualEdge | vicEvent | vicRealize
  | timerRealize
  | gemRealize
  | scu0c | scu88 | scu8c | scu9c | scuRealize
  | i2cRealize
  | temp0 | temp1 | temp2 | temp3
  deriving DecidableEq, Repr

/-- The peripheral each fallible call site configures or activates. -/
def periphOfSite : CallSite → Periph
  | .vicSense | .vicDualEdge | .vicEvent | .vicRealize => .vic
  | .timerRealize => .timer
  | .gemRealize => .gem
  | .scu0c | .scu88 | .scu8c | .scu9c | .scuRealize => .scu
  | .i2cRealize => .i2c
  | .temp0 | .temp1 | .temp2 | .temp3 => .tmp423

/-- The five activation ("realized") call sites, in bring-up order. -/
def activationSites : List CallSite :=
  [.vicRealize, .timerRealize, .gemRealize, .scuRealize, .i2cRealize]

/-- The two CPU interrupt inputs the VIC outputs are wired to
(`ARM_CPU_IRQ` / `ARM_CPU_FIQ`). -/
inductive CpuIrq where
  | irq | fiq
  deriving DecidableEq, Repr

/-- One observable collaborator call made by `ast2400_realize`, in source
order.  `sramAlloc`/`sramMap` carry no payload because `AST2400_SRAM_BASE`
and `AST2400_SRAM_SIZE` live in a header outside this repository slice. -/
inductive Event where
  /-- `memory_region_allocate_system_memory(&s->sram, ...)` -/
  | sramAlloc
  /-- `memory_region_add_subregion(get_system_memory(), AST2400_SRAM_BASE, &s->sram)` -/
  | sramMap
  /-- `memory_region_init_io(&s->iomem, ..., &ast2400_io_ops, ..., AST2400_IOMEM_SIZE)` -/
  | ioInit (size : Nat)
  /-- `memory_region_add_subregion_overlap(get_system_memory(), AST2400_IOMEM_BASE, &s->iomem, -1)` -/
  | ioMapOverlap (base : Nat) (priority : Int)
  /-- `object_property_set_int(OBJECT(p), value, key, &err)` -/
  | setInt (p : Periph) (key : String) (value : Nat)
  /-- `object_property_set_bool(OBJECT(p), true, "realized", &err)` -/
  | setRealized (p : Periph)
  /-- `sysbus_mmio_map(SYS_BUS_DEVICE(p), 0, base)` -/
  | mmioMap (p : Periph) (base : Nat)
  /-- `sysbus_connect_irq(p, outIdx, qdev_get_gpio_in(DEVICE(s->cpu), line))` -/
  | connectCpu (p : Periph) (outIdx : Nat) (line : CpuIrq)
  /-- `sysbus_connect_irq(p, outIdx, qdev_get_gpio_in(DEVICE(&s->vic), vicInput))` -/
  | connectIrq (p : Periph) (outIdx : Nat) (vicInput : Nat)
  /-- `qemu_check_nic_model(&nd_table[0], TYPE_CADENCE_GEM)` -/
  | checkNic
  /-- `qdev_set_nic_properties(DEVICE(&s->gem), &nd_table[0])` -/
  | setNicProps
  /-- `serial_mm_init(&s->iomem, offset, strideArg, vic input, baud, ...)`:
  the UART is created inside the catch-all `iomem` region itself. -/
  | serialMM (offset : Nat) (strideArg : Nat) (baud : Nat) (vicInput : Nat)
  /-- `i2c_create_slave(aspeed_i2c_get_bus(DEVICE(&s->i2c), busIdx), name, addr)` -/
  | createSlave (busIdx : Nat) (p : Periph) (addr : Nat)
  deriving DecidableEq, Repr

/-- The composition errors `ast2400_realize` can surface through `errp`:
a failed fallible collaborator call, or (modelled from the spec, see
`ast2400_realize`) a missing network backend at the
`qemu_check_nic_model` step. -/
inductive CompErr where
  | callFailed (s : CallSite)
  | missingNetBackend
  deriving DecidableEq, Repr

/-- The peripheral a composition error names. -/
def periphOfErr : CompErr → Periph
  | .callFailed s => periphOfSite s
  | .missingNetBackend => .gem

/-- First failing call site of a group of calls that share one
`if (err) ...` check: QEMU's `Error *err` channel keeps the first error
set while the remaining calls of the group are still made. -/
def firstFail (fail : CallSite → Bool) : List CallSite → Option CallSite
  | [] => none
  | s :: rest => if fail s then some s else firstFail fail rest

/-- `ast2400_realize(dev, errp)`, embedded as a pure function.

Inputs:
* `serial` — whether `serial_hds[0]` (the optional serial backend) is
  non-NULL;
* `net` — whether a usable network backend / NIC description is present
  for `nd_table[0]`.  Modelled from the spec: `qemu_check_nic_model` and
  the Cadence GEM model live outside this repository slice; the spec says
  a missing network backend yields an error identifying the network
  peripheral, so `net = false` aborts at the `qemu_check_nic_model` step
  with `CompErr.missingNetBackend`;
* `fail` — fault-injection oracle: which fallible collaborator calls
  (`object_property_set_int` / `..._set_bool`) report an error into the
  local `Error *err` channel.

Output: the trace of collaborator calls actually made, in source order,
and the error propagated to `errp` (`none` = the function returned
normally).  Checks of `err` happen exactly where the C code has
`if (err) { error_propagate(errp, err); return; }`; within a group of
calls sharing one check the first error wins but the later calls of the
group are still made; the four temperature-sensor property sets are never
checked, exactly as in the source. -/
def ast2400_realize (serial : Bool) (net : Bool) (fail : CallSite → Bool) :
    List Event × Option CompErr :=
  -- SRAM, then the catch-all IO space at priority -1 (both infallible)
  let evs := [Event.sramAlloc, Event.sramMap,
              Event.ioInit AST2400_IOMEM_SIZE,
              Event.ioMapOverlap AST2400_IOMEM_BASE (-1)]
  -- VIC: three property sets, one shared err check
  let evs := evs ++ [Event.setInt .vic "sense" 0x00001F07FFF8FFFF,
                     Event.setInt .vic "dual_edge" 0x000000F800070000,
                     Event.setInt .vic "event" 0x00005F07FFF8FFFF]
  match firstFail fail [.vicSense, .vicDualEdge, .vicEvent] with
  | some s => (evs, some (.callFailed s))
  | none =>
  let evs := evs ++ [Event.setRealized .vic]
  if fail .vicRealize then (evs, some (.callFailed .vicRealize)) else
  let evs := evs ++ [Event.mmioMap .vic AST2400_VIC_BASE,
                     Event.connectCpu .vic 0 .irq,
                     Event.connectCpu .vic 1 .fiq]
  -- Timer
  let evs := evs ++ [Event.setRealized .timer]
  if fail .timerRealize then (evs, some (.callFailed .timerRealize)) else
  let evs := evs ++ [Event.mmioMap .timer AST2400_TIMER_BASE] ++
    (List.range timer_irqs.length).map
      (fun i => Event.connectIrq .timer i (timer_irqs.getD i 0))
  -- Cadence GEM ethernet controller
  let evs := evs ++ [Event.checkNic]
  if !net then (evs, some .missingNetBackend) else
  let evs := evs ++ [Event.setNicProps, Event.setRealized .gem]
  if fail .gemRealize then (evs, some (.callFailed .gemRealize)) else
  let evs := evs ++ [Event.mmioMap .gem CDNS_GEM_ADDR,
                     Event.connectIrq .gem 0 CDNS_GEM_IRQ]
  -- SCU: four presets and the activation share one err check
  let evs := evs ++ [Event.setInt .scu "scu0c" 0x19FC3E8B,
                     Event.setInt .scu "scu88" 0x01000000,
                     Event.setInt .scu "scu8c" 0x000000FF,
                     Event.setInt .scu "scu9c" 0x003FFFF3,
                     Event.setRealized .scu]
  match firstFail fail [.scu0c, .scu88, .scu8c, .scu9c, .scuRealize] with
  | some s => (evs, some (.callFailed s))
  | none =>
  let evs := evs ++ [Event.mmioMap .scu AST2400_SCU_BASE]
  -- UART5: only if a serial backend is attached; absence is not an error
  let evs := evs ++
    (if serial then
      [Event.serialMM AST2400_UART_5_BASE 2 38400 (uart_irqs.getD 4 0)]
     else [])
  -- I2C
  let evs := evs ++ [Event.setRealized .i2c]
  if fail .i2cRealize then (evs, some (.callFailed .i2cRealize)) else
  let evs := evs ++ [Event.mmioMap .i2c AST2400_I2C_BASE,
                     Event.connectIrq .i2c 0 12]
  -- TMP423 temperature sensor: four property sets whose err is never
  -- checked, then the DS1338 RTC; the function then returns normally,
  -- so a failure among the four is not propagated to errp
  let evs := evs ++ [Event.createSlave 2 .tmp423 0x4C,
                     Event.setInt .tmp423 "temperature0" 31000,
                     Event.setInt .tmp423 "temperature1" 28000,
                     Event.setInt .tmp423 "temperature2" 20000,
                     Event.setInt .tmp423 "temperature3" 110000,
                     Event.createSlave 0 .ds1338 0x68]
  (evs, none)

/-! ## The resulting address-space layout

`memory_region_add_subregion_overlap(..., -1)` inserts the catch-all
window below the default priority 0 at which `sysbus_mmio_map` inserts
each concrete peripheral region.  The UART created by `serial_mm_init`
is a *subregion of the catch-all `iomem` region itself*: in QEMU's
flattened view it is visible above `iomem`'s own ops but below any
priority-0 sibling of `iomem`.  We encode this fixed two-level nesting
flatly by doubling sibling priorities (catch-all ops: `2 * -1 = -2`,
sysbus peripherals: `0`) and placing the UART strictly between them
(`-1`). -/

/-- Who answers an access: a concrete peripheral's MMIO region, or the
catch-all IO ops. -/
inductive Handler where
  | catchall
  | dev (p : Periph)
  deriving DecidableEq, Repr

/-- One region of the flattened system address space. -/
structure Region where
  handler : Handler
  base : Nat
  size : Nat
  priority : Int
  deriving DecidableEq, Repr

/-- Build the flattened region list from a realize trace.  The MMIO sizes
of the peripheral models live outside this repository slice, so they are
a parameter `sz`.  `sramAlloc`/`sramMap` are skipped: the SRAM base and
size come from a header outside the slice and no probed address concerns
it. -/
def regionsOfAux (sz : Periph → Nat) (ioBase ioSize : Nat) :
    List Event → List Region
  | [] => []
  | e :: rest =>
    match e with
    | .ioInit n => regionsOfAux sz ioBase n rest
    | .ioMapOverlap b p =>
        ⟨.catchall, b, ioSize, 2 * p⟩ :: regionsOfAux sz b ioSize rest
    | .mmioMap p b =>
        ⟨.dev p, b, sz p, 0⟩ :: regionsOfAux sz ioBase ioSize rest
    | .serialMM off _ _ _ =>
        ⟨.dev .uart, ioBase + off, sz .uart, -1⟩ ::
          regionsOfAux sz ioBase ioSize rest
    | _ => regionsOfAux sz ioBase ioSize rest

def regionsOf (evs : List Event) (sz : Periph → Nat) : List Region :=
  regionsOfAux sz 0 0 evs

/-- The highest-priority region of `rs` containing `addr` (earlier
regions of the list win ties; the layouts probed below have no
same-priority overlap at the probed addresses). -/
def bestRegion : List Region → Nat → Option Region
  | [], _ => none
  | r :: rs, addr =>
    match bestRegion rs addr with
    | none => if r.base ≤ addr ∧ addr < r.base + r.size then some r else none
    | some r' =>
        if (r.base ≤ addr ∧ addr < r.base + r.size) ∧ r'.priority < r.priority
        then some r else some r'

/-- Who answers an access at `addr` in the flattened layout `rs`. -/
def resolve (rs : List Region) (addr : Nat) : Option Handler :=
  (bestRegion rs addr).map Region.handler

/-- The five sysbus peripherals `ast2400_realize` maps at fixed bases. -/
def mappedPeriphs : List Periph := [.vic, .timer, .gem, .scu, .i2c]

/-- The fixed base address each sysbus peripheral is mapped at. -/
def baseOf : Periph → Nat
  | .vic => AST2400_VIC_BASE
  | .timer => AST2400_TIMER_BASE
  | .gem => CDNS_GEM_ADDR
  | .scu => AST2400_SCU_BASE
  | .i2c => AST2400_I2C_BASE
  | .uart => AST2400_IOMEM_BASE + AST2400_UART_5_BASE
  | .tmp423 => 0x4C
  | .ds1338 => 0x68

/-- The peripheral an event configures, activates, maps or wires
(`none` for the SRAM/IO-window plumbing that belongs to no peripheral). -/
def eventPeriph : Event → Option Periph
  | .sramAlloc | .sramMap | .ioInit _ | .ioMapOverlap _ _ => none
  | .setInt p _ _ => some p
  | .setRealized p => some p
  | .mmioMap p _ => some p
  | .connectCpu p _ _ => some p
  | .connectIrq p _ _ => some p
  | .checkNic => some .gem
  | .setNicProps => some .gem
  | .serialMM _ _ _ _ => some .uart
  | .createSlave _ p _ => some p

/-- Whether an event is the `serial_mm_init` UART instantiation. -/
def isSerialInit : Event → Bool
  | .serialMM _ _ _ _ => true
  | _ => false

/-- Whether an event configures, activates, maps or wires a peripheral
declared strictly later in the bring-up sequence than `p`. -/
def touchesLaterPeriph (p : Periph) (e : Event) : Bool :=
  match eventPeriph e with
  | some q => decide (periphRank p < periphRank q)
  | none => false

/-- The fault oracle that makes no collaborator call fail. -/
def noFault : CallSite → Bool := fun _ => false

/-- The fault oracle that makes exactly the call at site `s` fail. -/
def singleFault (s : CallSite) : CallSite → Bool := fun t => t == s

/-- The complete collaborator-call trace of a run of `ast2400_realize`
that returns normally (it only depends on whether a serial backend is
attached). -/
def fullTrace (serial : Bool) : List Event :=
  [Event.sramAlloc, Event.sramMap,
   Event.ioInit AST2400_IOMEM_SIZE,
   Event.ioMapOverlap AST2400_IOMEM_BASE (-1),
   Event.setInt .vic "sense" 0x00001F07FFF8FFFF,
   Event.setInt .vic "dual_edge" 0x000000F800070000,
   Event.setInt .vic "event" 0x00005F07FFF8FFFF,
   Event.setRealized .vic,
   Event.mmioMap .vic AST2400_VIC_BASE,
   Event.connectCpu .vic 0 .irq,
   Event.connectCpu .vic 1 .fiq,
   Event.setRealized .timer,
   Event.mmioMap .timer AST2400_TIMER_BASE,
   Event.connectIrq .timer 0 16, Event.connectIrq .timer 1 17,
   Event.connectIrq .timer 2 18, Event.connectIrq .timer 3 35,
   Event.connectIrq .timer 4 36, Event.connectIrq .timer 5 37,
   Event.connectIrq .timer 6 38, Event.connectIrq .timer 7 39,
   Event.checkNic, Event.setNicProps,
   Event.setRealized .gem,
   Event.mmioMap .gem CDNS_GEM_ADDR,
   Event.connectIrq .gem 0 CDNS_GEM_IRQ,
   Event.setInt .scu "scu0c" 0x19FC3E8B,
   Event.setInt .scu "scu88" 0x01000000,
   Event.setInt .scu "scu8c" 0x000000FF,
   Event.setInt .scu "scu9c" 0x003FFFF3,
   Event.setRealized .scu,
   Event.mmioMap .scu AST2400_SCU_BASE] ++
  (if serial then
    [Event.serialMM AST2400_UART_5_BASE 2 38400 10]
   else []) ++
  [Event.setRealized .i2c,
   Event.mmioMap .i2c AST2400_I2C_BASE,
   Event.connectIrq .i2c 0 12,
   Event.createSlave 2 .tmp423 0x4C,
   Event.setInt .tmp423 "temperature0" 31000,
   Event.setInt .tmp423 "temperature1" 28000,
   Event.setInt .tmp423 "temperature2" 20000,
   Event.setInt .tmp423 "temperature3" 110000,
   Event.createSlave 0 .ds1338 0x68]

/-- A run of `ast2400_realize` that propagates no error to `errp` made
every collaborator call of the full bring-up sequence, in source order. -/
theorem realize_success_trace (serial net : Bool) (fail : CallSite → Bool)
    (h : (ast2400_realize serial net fail).2 = none) :
    (ast2400_realize serial net fail).1 = fullTrace serial := by
  revert h
  unfold ast2400_realize
  repeat' split
  all_goals intro h
  all_goals first | (simp at h; done) | (cases serial <;> first | rfl | simp_all)

/-- The timer-expiry wiring a trace establishes: the list of
`(timer output index, interrupt-controller input)` pairs, in order. -/
def timerConnections (evs : List Event) : List (Nat × Nat) :=
  evs.filterMap (fun e =>
    match e with
    | .connectIrq .timer i n => some (i, n)
    | _ => none)

/-- The sub-trace of collaborator calls that touch the interrupt
controller. -/
def vicTrace (evs : List Event) : List Event :=
  evs.filter (fun e => eventPeriph e == some .vic)

/-- Modelled from the spec: the register-addressing stride denoted by the
stride argument `serial_mm_init` receives (the literal `2` at the call
site), expressed in bits — the spec calls it a "16-bit addressing
stride".  `serial_mm_init` itself (`hw/char/serial.c`) is outside this
repository slice. -/
def strideBits (strideArg : Nat) : Nat := 8 * strideArg

end Ast2400

namespace Ast2400

/-- The peripherals of the SoC, enumerated. -/
def allPeriphs : List Periph :=
  [.vic, .timer, .gem, .scu, .uart, .i2c, .tmp423, .ds1338]

/-- The side conditions on the (externally defined) peripheral MMIO sizes
under which the probed fixed base addresses are claimed by exactly their
own peripheral: every mapped peripheral's region is non-empty, and no
other peripheral's region stretches over a probed base address. -/
def szOK (sz : Periph → Nat) : Prop :=
  (0 < sz .vic ∧ 0 < sz .timer ∧ 0 < sz .gem ∧ 0 < sz .scu ∧ 0 < sz .i2c) ∧
  ¬(baseOf .timer ≤ baseOf .vic ∧ baseOf .vic < baseOf .timer + sz .timer) ∧
  ¬(baseOf .gem ≤ baseOf .vic ∧ baseOf .vic < baseOf .gem + sz .gem) ∧
  ¬(baseOf .scu ≤ baseOf .vic ∧ baseOf .vic < baseOf .scu + sz .scu) ∧
  ¬(baseOf .uart ≤ baseOf .vic ∧ baseOf .vic < baseOf .uart + sz .uart) ∧
  ¬(baseOf .i2c ≤ baseOf .vic ∧ baseOf .vic < baseOf .i2c + sz .i2c) ∧
  ¬(baseOf .tmp423 ≤ baseOf .vic ∧ baseOf .vic < baseOf .tmp423 + sz .tmp423) ∧
  ¬(baseOf .ds1338 ≤ baseOf .vic ∧ baseOf .vic < baseOf .ds1338 + sz .ds1338) ∧
  ¬(baseOf .vic ≤ baseOf .timer ∧ baseOf .timer < baseOf .vic + sz .vic) ∧
  ¬(baseOf .gem ≤ baseOf .timer ∧ baseOf .timer < baseOf .gem + sz .gem) ∧
  ¬(baseOf .scu ≤ baseOf .timer ∧ baseOf .timer < baseOf .scu + sz .scu) ∧
  ¬(baseOf .uart ≤ baseOf .timer ∧ baseOf .timer < baseOf .uart + sz .uart) ∧
  ¬(baseOf .i2c ≤ baseOf .timer ∧ baseOf .timer < baseOf .i2c + sz .i2c) ∧
  ¬(baseOf .tmp423 ≤ baseOf .timer ∧ baseOf .timer < baseOf .tmp423 + sz .tmp423) ∧
  ¬(baseOf .ds1338 ≤ baseOf .timer ∧ baseOf .timer < baseOf .ds1338 + sz .ds1338) ∧
  ¬(baseOf .vic ≤ baseOf .gem ∧ baseOf .gem < baseOf .vic + sz .vic) ∧
  ¬(baseOf .timer ≤ baseOf .gem ∧ baseOf .gem < baseOf .timer + sz .timer) ∧
  ¬(baseOf .scu ≤ baseOf .gem ∧ baseOf .gem < baseOf .scu + sz .scu) ∧
  ¬(baseOf .uart ≤ baseOf .gem ∧ baseOf .gem < baseOf .uart + sz .uart) ∧
  ¬(baseOf .i2c ≤ baseOf .gem ∧ baseOf .gem < baseOf .i2c + sz .i2c) ∧
  ¬(baseOf .tmp423 ≤ baseOf .gem ∧ baseOf .gem < baseOf .tmp423 + sz .tmp423) ∧
  ¬(baseOf .ds1338 ≤ baseOf .gem ∧ baseOf .gem < baseOf .ds1338 + sz .ds1338) ∧
  ¬(baseOf .vic ≤ baseOf .scu ∧ baseOf .scu < baseOf .vic + sz .vic) ∧
  ¬(baseOf .timer ≤ baseOf .scu ∧ baseOf .scu < baseOf .timer + sz .timer) ∧
  ¬(baseOf .gem ≤ baseOf .scu ∧ baseOf .scu < baseOf .gem + sz .gem) ∧
  ¬(baseOf .uart ≤ baseOf .scu ∧ baseOf .scu < baseOf .uart + sz .uart) ∧
  ¬(baseOf .i2c ≤ baseOf .scu ∧ baseOf .scu < baseOf .i2c + sz .i2c) ∧
  ¬(baseOf .tmp423 ≤ baseOf .scu ∧ baseOf .scu < baseOf .tmp423 + sz .tmp423) ∧
  ¬(baseOf .ds1338 ≤ baseOf .scu ∧ baseOf .scu < baseOf .ds1338 + sz .ds1338) ∧
  ¬(baseOf .vic ≤ baseOf .i2c ∧ baseOf .i2c < baseOf .vic + sz .vic) ∧
  ¬(baseOf .timer ≤ baseOf .i2c ∧ baseOf .i2c < baseOf .timer + sz .timer) ∧
  ¬(baseOf .gem ≤ baseOf .i2c ∧ baseOf .i2c < baseOf .gem + sz .gem) ∧
  ¬(baseOf .scu ≤ baseOf .i2c ∧ baseOf .i2c < baseOf .scu + sz .scu) ∧
  ¬(baseOf .uart ≤ baseOf .i2c ∧ baseOf .i2c < baseOf .uart + sz .uart) ∧
  ¬(baseOf .tmp423 ≤ baseOf .i2c ∧ baseOf .i2c < baseOf .tmp423 + sz .tmp423) ∧
  ¬(baseOf .ds1338 ≤ baseOf .i2c ∧ baseOf .i2c < baseOf .ds1338 + sz .ds1338)

/-- The flattened region list a successful composition produces: the
catch-all window at (doubled) priority `-2`, the five sysbus peripherals
at priority `0`, and, when a serial backend is attached, the UART inside
the catch-all window strictly between the two. -/
theorem regionsOf_fullTrace (serial : Bool) (sz : Periph → Nat) :
    regionsOf (fullTrace serial) sz =
      [⟨Handler.catchall, 0x1E600000, 0x00200000, -2⟩,
       ⟨Handler.dev .vic, 0x1E6C0000, sz .vic, 0⟩,
       ⟨Handler.dev .timer, 0x1E782000, sz .timer, 0⟩,
       ⟨Handler.dev .gem, 0x1E680000, sz .gem, 0⟩,
       ⟨Handler.dev .scu, 0x1E6E2000, sz .scu, 0⟩] ++
      (if serial then [⟨Handler.dev .uart, 0x1E784000, sz .uart, -1⟩] else []) ++
      [⟨Handler.dev .i2c, 0x1E78A000, sz .i2c, 0⟩] := by
  cases serial <;> rfl

/-- `bestRegion` returns a member of the list that contains the probed
address. -/
theorem bestRegion_mem_contains (rs : List Region) (addr : Nat) (r : Region)
    (h : bestRegion rs addr = some r) :
    r ∈ rs ∧ r.base ≤ addr ∧ addr < r.base + r.size := by
  induction rs with
  | nil => simp [bestRegion] at h
  | cons x rest ih =>
    cases hb : bestRegion rest addr with
    | none =>
      simp only [bestRegion, hb] at h
      split at h
      · rename_i hcond
        obtain rfl : x = r := by injection h
        exact ⟨List.mem_cons_self _ _, hcond⟩
      · exact absurd h (by simp)
    | some r' =>
      simp only [bestRegion, hb] at h
      split at h
      · rename_i hcond
        obtain rfl : x = r := by injection h
        exact ⟨List.mem_cons_self _ _, hcond.1⟩
      · obtain rfl : r' = r := by injection h
        obtain ⟨hm, hc⟩ := ih hb
        exact ⟨List.mem_cons_of_mem _ hm, hc⟩

/-- If `r` is a member region containing `addr` and every other member
containing `addr` has strictly lower priority, `bestRegion` picks `r`. -/
theorem bestRegion_eq_of_dominates (rs : List Region) (addr : Nat) (r : Region)
    (hmem : r ∈ rs) (hcont : r.base ≤ addr ∧ addr < r.base + r.size)
    (hdom : ∀ r' ∈ rs, r' ≠ r → r'.base ≤ addr → addr < r'.base + r'.size →
      r'.priority < r.priority) :
    bestRegion rs addr = some r := by
  induction rs with
  | nil => cases hmem
  | cons x rest ih =>
    rcases List.mem_cons.mp hmem with rfl | hmem'
    · cases hb : bestRegion rest addr with
      | none =>
        simp only [bestRegion, hb]
        rw [if_pos hcont]
      | some r' =>
        simp only [bestRegion, hb]
        by_cases hrr : r' = r
        · subst hrr
          split <;> rfl
        · obtain ⟨hm, hc1, hc2⟩ := bestRegion_mem_contains rest addr r' hb
          rw [if_pos ⟨hcont, hdom r' (List.mem_cons_of_mem _ hm) hrr hc1 hc2⟩]
    · have hb : bestRegion rest addr = some r :=
        ih hmem' (fun r' h' => hdom r' (List.mem_cons_of_mem _ h'))
      simp only [bestRegion, hb]
      by_cases hxr : x = r
      · subst hxr
        rw [if_neg (fun hcond => lt_irrefl _ hcond.2)]
      · by_cases hx : x.base ≤ addr ∧ addr < x.base + x.size
        · rw [if_neg (fun hcond => absurd hcond.2 (not_lt.mpr (le_of_lt
            (hdom x (List.mem_cons_self _ _) hxr hx.1 hx.2))))]
        · rw [if_neg (fun hcond => hx hcond.1)]

/-- A peripheral's own non-empty priority-0 region mapped at `addr`
answers a probe at `addr` when every other region at `addr` has negative
priority. -/
theorem resolve_dev_at_base (rs : List Region) (p : Periph) (addr : Nat)
    (sz : Periph → Nat)
    (hmem : (⟨Handler.dev p, addr, sz p, 0⟩ : Region) ∈ rs)
    (hsz : 0 < sz p)
    (hdom : ∀ r' ∈ rs, r' ≠ (⟨Handler.dev p, addr, sz p, 0⟩ : Region) →
      r'.base ≤ addr → addr < r'.base + r'.size → r'.priority < 0) :
    resolve rs addr = some (Handler.dev p) := by
  have h := bestRegion_eq_of_dominates rs addr ⟨Handler.dev p, addr, sz p, 0⟩
    hmem ⟨Nat.le_refl _, by show addr < addr + sz p; omega⟩ hdom
  simp [resolve, h]

/-- C4: The catch-all region is inserted at the IO window base with
lower priority than every concrete peripheral region overlapping it:
after any successful composition, and for any (externally defined)
peripheral MMIO sizes satisfying `szOK`, a probe at each fixed
peripheral base address resolves to that peripheral's handler, never to
the catch-all handler. -/
theorem peripheral_regions_shadow_catchall (serial net : Bool)
    (fail : CallSite → Bool) (sz : Periph → Nat)
    (hsuc : (ast2400_realize serial net fail).2 = none)
    (hsz : szOK sz) :
    ∀ p ∈ mappedPeriphs,
      resolve (regionsOf (ast2400_realize serial net fail).1 sz) (baseOf p) =
        some (Handler.dev p) := by
  rw [realize_success_trace serial net fail hsuc, regionsOf_fullTrace]
  simp only [szOK, baseOf, AST2400_VIC_BASE, AST2400_TIMER_BASE, CDNS_GEM_ADDR,
    AST2400_SCU_BASE, AST2400_I2C_BASE, AST2400_IOMEM_BASE,
    AST2400_UART_5_BASE] at hsz
  intro p hp
  fin_cases hp <;>
    simp only [baseOf, AST2400_VIC_BASE, AST2400_TIMER_BASE, CDNS_GEM_ADDR,
      AST2400_SCU_BASE, AST2400_I2C_BASE] <;>
    cases serial <;>
    simp only [if_true, if_false, Bool.false_eq_true, List.cons_append,
      List.nil_append] <;>
    (refine resolve_dev_at_base _ _ _ sz (by simp) (by omega) ?_) <;>
    (intro r' hr' hne h1 h2
     fin_cases hr' <;>
       first
         | (exact absurd rfl hne)
         | (dsimp only at h1 h2 ⊢; omega))

/-- A representative size assignment (one 4 KiB page per peripheral)
satisfying the `szOK` side conditions. -/
def szWitness : Periph → Nat := fun _ => 0x1000

/-- Witness for C4: with one-page regions, the probe at the interrupt
controller's base reaches the interrupt controller, not the catch-all. -/
theorem peripheral_regions_shadow_catchall_witness :
    resolve (regionsOf (ast2400_realize true true noFault).1 szWitness)
      (baseOf .vic) = some (Handler.dev .vic) :=
  peripheral_regions_shadow_catchall true true noFault szWitness (by decide)
    (by unfold szOK
        simp only [baseOf, szWitness, AST2400_VIC_BASE, AST2400_TIMER_BASE,
          CDNS_GEM_ADDR, AST2400_SCU_BASE, AST2400_I2C_BASE,
          AST2400_IOMEM_BASE, AST2400_UART_5_BASE]
        omega)
    .vic (by decide)

/-- C3: For every offset and every access size within the catch-all IO
window, a read returns exactly 0 and emits a diagnostic record of offset
and size, and a write discards the value, emitting a diagnostic record
of offset, value and size; both are total functions of their arguments
(they touch no state and cannot fail). -/
theorem io_catchall_read_zero_write_discard (offset value size : Nat) :
    ast2400_io_read offset size = (0, ⟨offset, size⟩) ∧
    ast2400_io_write offset value size = ⟨offset, value, size⟩ :=
  ⟨rfl, rfl⟩

/-- C2: After successful composition, timer-expiry output `i` is
connected to exactly interrupt-controller input `timer_irqs[i]`, and the
table is exactly the non-contiguous `{16, 17, 18, 35, 36, 37, 38, 39}`,
entry by entry. -/
theorem timer_irq_table_exact (serial net : Bool) (fail : CallSite → Bool)
    (h : (ast2400_realize serial net fail).2 = none) :
    timer_irqs = [16, 17, 18, 35, 36, 37, 38, 39] ∧
    timerConnections (ast2400_realize serial net fail).1 =
      [(0, 16), (1, 17), (2, 18), (3, 35), (4, 36), (5, 37), (6, 38), (7, 39)] := by
  rw [realize_success_trace serial net fail h]
  cases serial <;> exact ⟨rfl, rfl⟩

/-- Witness for C2 at a concrete successful run. -/
theorem timer_irq_table_exact_witness :
    timerConnections (ast2400_realize true true noFault).1 =
      [(0, 16), (1, 17), (2, 18), (3, 35), (4, 36), (5, 37), (6, 38), (7, 39)] :=
  (timer_irq_table_exact true true noFault (by decide)).2

/-- C1: Injecting a forced activation failure at any single activation
step (interrupt controller, timer, network MAC, system-control-unit,
two-wire bus controller) makes `ast2400_realize` return that error —
naming that peripheral via `periphOfErr` — and no peripheral declared
later in the sequence is ever configured, activated, mapped or wired. -/
theorem realize_fault_injection_aborts (serial : Bool) (s : CallSite)
    (hs : s ∈ activationSites) :
    (ast2400_realize serial true (singleFault s)).2 =
      some (CompErr.callFailed s) ∧
    ∀ e ∈ (ast2400_realize serial true (singleFault s)).1,
      touchesLaterPeriph (periphOfSite s) e = false := by
  simp only [activationSites, List.mem_cons, List.not_mem_nil, or_false] at hs
  rcases hs with rfl | rfl | rfl | rfl | rfl <;> cases serial <;> decide

/-- Witness for C1: a forced timer activation failure. -/
theorem realize_fault_injection_aborts_witness :
    (ast2400_realize true true (singleFault .timerRealize)).2 =
      some (CompErr.callFailed .timerRealize) :=
  (realize_fault_injection_aborts true .timerRealize (by decide)).1

/-- C5 counterexample: the four temperature-sensor preset applications
are *not* individually checked — inject a failure at the first one and
composition still makes the later collaborator calls (the remaining
presets and the RTC attachment) and still returns success, silently
continuing past the failure. -/
theorem unchecked_temp_preset_counterexample :
    (ast2400_realize true true (singleFault .temp0)).2 = none ∧
    Event.setInt .tmp423 "temperature1" 28000 ∈
      (ast2400_realize true true (singleFault .temp0)).1 ∧
    Event.createSlave 0 .ds1338 0x68 ∈
      (ast2400_realize true true (singleFault .temp0)).1 := by
  decide

/-- C5 amended: each of the five activations is individually checked and
the first failure aborts composition; the three interrupt-controller mask
applications share one check placed after all three (a failing mask
application does not stop the remaining mask calls, but aborts before
activation); the four system-control-unit presets share their check with
the SCU activation; and the four temperature-sensor presets are never
checked — a failure there is silently ignored and composition still
succeeds. -/
theorem error_checks_amended :
    ((ast2400_realize true true (singleFault .vicRealize)).2 =
      some (CompErr.callFailed .vicRealize) ∧
     (ast2400_realize true true (singleFault .timerRealize)).2 =
      some (CompErr.callFailed .timerRealize) ∧
     (ast2400_realize true true (singleFault .gemRealize)).2 =
      some (CompErr.callFailed .gemRealize) ∧
     (ast2400_realize true true (singleFault .scuRealize)).2 =
      some (CompErr.callFailed .scuRealize) ∧
     (ast2400_realize true true (singleFault .i2cRealize)).2 =
      some (CompErr.callFailed .i2cRealize)) ∧
    ((ast2400_realize true true (singleFault .vicSense)).2 =
      some (CompErr.callFailed .vicSense) ∧
     Event.setInt .vic "dual_edge" 0x000000F800070000 ∈
      (ast2400_realize true true (singleFault .vicSense)).1 ∧
     Event.setRealized .vic ∉
      (ast2400_realize true true (singleFault .vicSense)).1) ∧
    ((ast2400_realize true true (singleFault .scu0c)).2 =
      some (CompErr.callFailed .scu0c) ∧
     Event.setRealized .scu ∈
      (ast2400_realize true true (singleFault .scu0c)).1 ∧
     Event.mmioMap .scu AST2400_SCU_BASE ∉
      (ast2400_realize true true (singleFault .scu0c)).1) ∧
    ((ast2400_realize true true (singleFault .temp0)).2 = none ∧
     (ast2400_realize true true (singleFault .temp1)).2 = none ∧
     (ast2400_realize true true (singleFault .temp2)).2 = none ∧
     (ast2400_realize true true (singleFault .temp3)).2 = none) := by
  decide

/-- C6: Composing with a missing network backend fails — modelled from
the spec, the `qemu_check_nic_model` step yields an error identifying
the network peripheral (the Cadence GEM) rather than silently skipping
the network MAC step. -/
theorem missing_net_backend_fails (serial : Bool) :
    (ast2400_realize serial false noFault).2 = some CompErr.missingNetBackend ∧
    periphOfErr CompErr.missingNetBackend = Periph.gem := by
  cases serial <;> exact ⟨rfl, rfl⟩

/-- C7: Whenever a serial backend is supplied, a successful composition
instantiates exactly one UART, inside the catch-all IO region's own
address range at fixed offset `0x00184000`, with stride argument 2
(the spec's 16-bit addressing stride), default baud 38400, and its
interrupt output connected to fixed interrupt-controller input 10
(`uart_irqs[4]`). -/
theorem uart_serial_instantiation (net : Bool) (fail : CallSite → Bool)
    (h : (ast2400_realize true net fail).2 = none) :
    (ast2400_realize true net fail).1.filter isSerialInit =
      [Event.serialMM AST2400_UART_5_BASE 2 38400 10] ∧
    AST2400_UART_5_BASE = 0x00184000 ∧
    AST2400_UART_5_BASE < AST2400_IOMEM_SIZE ∧
    strideBits 2 = 16 ∧
    uart_irqs.getD 4 0 = 10 := by
  rw [realize_success_trace true net fail h]
  decide

/-- Witness for C7 at a concrete successful run. -/
theorem uart_serial_instantiation_witness :
    (ast2400_realize true true noFault).1.filter isSerialInit =
      [Event.serialMM AST2400_UART_5_BASE 2 38400 10] :=
  (uart_serial_instantiation true noFault (by decide)).1

/-- C8: Composing with a missing serial backend succeeds (absence is not
an error), every other step still runs (the trace is exactly the
with-serial trace minus the UART instantiation), and no UART region is
present in the resulting address space for any peripheral sizes. -/
theorem missing_serial_backend_ok :
    (ast2400_realize false true noFault).2 = none ∧
    (ast2400_realize false true noFault).1 =
      (ast2400_realize true true noFault).1.filter (fun e => !isSerialInit e) ∧
    ∀ sz : Periph → Nat,
      (regionsOf (ast2400_realize false true noFault).1 sz).all
        (fun r => r.handler != Handler.dev .uart) = true := by
  exact ⟨by decide, by decide, fun sz => rfl⟩

/-- C9: In every successful composition the interrupt controller is
configured with exactly the three 64-bit masks
sense = `0x00001F07FFF8FFFF`, dual-edge = `0x000000F800070000`,
event = `0x00005F07FFF8FFFF`, all before its activation; after
activation it is mapped at its fixed base `0x1E6C0000` and its output 0
is wired to the CPU's normal interrupt input, its output 1 to the CPU's
fast interrupt input — in exactly this order. -/
theorem vic_config_and_wiring (serial net : Bool) (fail : CallSite → Bool)
    (h : (ast2400_realize serial net fail).2 = none) :
    vicTrace (ast2400_realize serial net fail).1 =
      [Event.setInt .vic "sense" 0x00001F07FFF8FFFF,
       Event.setInt .vic "dual_edge" 0x000000F800070000,
       Event.setInt .vic "event" 0x00005F07FFF8FFFF,
       Event.setRealized .vic,
       Event.mmioMap .vic AST2400_VIC_BASE,
       Event.connectCpu .vic 0 .irq,
       Event.connectCpu .vic 1 .fiq] ∧
    AST2400_VIC_BASE = 0x1E6C0000 := by
  rw [realize_success_trace serial net fail h]
  cases serial <;> exact ⟨rfl, rfl⟩

/-- Witness for C9 at a concrete successful run. -/
theorem vic_config_and_wiring_witness :
    vicTrace (ast2400_realize false true noFault).1 =
      [Event.setInt .vic "sense" 0x00001F07FFF8FFFF,
       Event.setInt .vic "dual_edge" 0x000000F800070000,
       Event.setInt .vic "event" 0x00005F07FFF8FFFF,
       Event.setRealized .vic,
       Event.mmioMap .vic AST2400_VIC_BASE,
       Event.connectCpu .vic 0 .irq,
       Event.connectCpu .vic 1 .fiq] :=
  (vic_config_and_wiring false true noFault (by decide)).1

/-- C10: In every successful composition the network MAC's interrupt
output 0 is wired to interrupt-controller input 3 (`CDNS_GEM_IRQ`), the
two-wire bus controller's to input 12, and — whenever a serial backend
is present — the UART's to input 10 (`uart_irqs[4]`); the numbers are
fixed constants, independent of the inputs of the composition. -/
theorem fixed_irq_inputs (serial net : Bool) (fail : CallSite → Bool)
    (h : (ast2400_realize serial net fail).2 = none) :
    Event.connectIrq .gem 0 3 ∈ (ast2400_realize serial net fail).1 ∧
    CDNS_GEM_IRQ = 3 ∧
    Event.connectIrq .i2c 0 12 ∈ (ast2400_realize serial net fail).1 ∧
    (serial = true →
      Event.serialMM AST2400_UART_5_BASE 2 38400 10 ∈
        (ast2400_realize serial net fail).1) ∧
    uart_irqs = [9, 32, 33, 34, 10] := by
  rw [realize_success_trace serial net fail h]
  cases serial <;> decide

/-- Witness for C10 at a concrete successful run. -/
theorem fixed_irq_inputs_witness :
    Event.connectIrq .gem 0 3 ∈ (ast2400_realize true true noFault).1 :=
  (fixed_irq_inputs true true noFault (by decide)).1

end Ast2400
